import Mathlib

/-!
A shallow embedding of the gobits BITS-upload HTTP handler (package gobits,
file gobits.go) together with proofs about its behaviour.

Go `uint64` values are modelled as `Nat` with the wraparound of additions and
subtractions made explicit through `% 2^64`.  Header values are Lean strings,
request payloads and file contents are lists of byte values, and the
filesystem visible to one handler call is an explicit structure (session
directories plus per-session files).  Randomness (the fresh session UUID) is a
parameter, and filesystem faults other than plain non-existence are not
modelled; the registered callback is modelled by recording the events that the
handler fires.
-/

namespace Gobits

/-- `2^64`, the modulus of Go `uint64` arithmetic. -/
def U64 : Nat := 18446744073709551616

/-- Go `uint64` addition (wraps modulo `2^64`). -/
def add64 (a b : Nat) : Nat := (a + b) % U64

/-- Go `uint64` subtraction (two's-complement wraparound), intended for
arguments below `2^64`. -/
def sub64 (a b : Nat) : Nat := (a + U64 - b) % U64

/-- Go `strings.Split` restricted to a one-character separator (the handler
only ever splits on `"/"`, `"-"` and `" "`). -/
def splitOn1 (sep : Char) : List Char → List (List Char)
  | [] => [[]]
  | c :: rest =>
    match splitOn1 sep rest with
    | [] => [[]]
    | h :: t => if c = sep then [] :: h :: t else (c :: h) :: t

/-- Go `strconv.ParseUint(s, 10, 64)`: a non-empty all-digit string whose
value fits in 64 bits. -/
def parseUint64 (s : List Char) : Option Nat :=
  if s.isEmpty then none
  else if s.all Char.isDigit then
    let v := s.foldl (fun a c => a * 10 + (c.toNat - 48)) 0
    if v < U64 then some v else none
  else none

/-- `parseRange` from gobits.go: accepts exactly the shape
`"bytes <start>-<end>/<total>"`, in the same order of checks as the source
(prefix, one slash, total, one dash, start, end). -/
def parseRange (rangeString : String) : Option (Nat × Nat × Nat) :=
  let cs := rangeString.data
  if List.isPrefixOf "bytes ".data cs then
    match splitOn1 '/' (cs.drop 6) with
    | [a, b] =>
      match parseUint64 b with
      | some fileLength =>
        match splitOn1 '-' a with
        | [s0, e0] =>
          match parseUint64 s0, parseUint64 e0 with
          | some rs, some re => some (rs, re, fileLength)
          | _, _ => none
        | _ => none
      | none => none
    | _ => none
  else none

/-- ASCII lower-casing of one character (`strings.ToLower` on the ASCII
header values the dispatcher compares). -/
def lowerChar (c : Char) : Char :=
  if 65 ≤ c.toNat ∧ c.toNat ≤ 90 then Char.ofNat (c.toNat + 32) else c

/-- `strings.ToLower` for ASCII strings. -/
def lowerStr (s : String) : String := String.mk (s.data.map lowerChar)

/-- One digit of Go's `strconv` formatting alphabet (lower case). -/
def digitChar (n : Nat) : Char :=
  if n < 10 then Char.ofNat (48 + n) else Char.ofNat (87 + n)

/-- Digits of `n` in the given base, most significant first.  The first
argument is fuel so that the definition is structural (passing `n` itself as
fuel always suffices). -/
def digitsAux (base : Nat) : Nat → Nat → List Char
  | 0, _ => []
  | fuel + 1, n => if n = 0 then [] else digitsAux base fuel (n / base) ++ [digitChar (n % base)]

/-- Go `strconv.FormatUint(n, base)` (also `FormatInt` on the nonnegative
values the handler formats). -/
def formatNat (base n : Nat) : String :=
  if n = 0 then "0" else String.mk (digitsAux base n n)

/-- The filename part of Go `path.Split`: everything after the final slash. -/
def pathSplitFile (s : String) : String :=
  String.mk ((splitOn1 '/' s.data).getLastD [])

/-- One event delivered to the registered callback (the `Event` constants of
gobits.go, keeping the source's spelling of `EventRecieveFile`). -/
inductive Ev where
  | createSession (session : String)
  | recieveFile (session : String) (filename : String)
  | closeSession (session : String)
  | cancelSession (session : String)
deriving DecidableEq

/-- The fields of `Config` that the request handlers read (`TempDir` is
abstracted away: paths under it are identified by session id and filename). -/
structure Config where
  allowedMethod : String
  protocol : String
  maxSize : Nat
  allowed : List String
  disallowed : List String
deriving DecidableEq

/-- The parts of an HTTP request that the handlers read. -/
structure Request where
  method : String
  packetType : String
  sessionId : String
  requestURI : String
  supportedProtocols : String
  contentRange : String
  contentLength : String
  body : List Nat
deriving DecidableEq

/-- The filesystem state under the temporary directory: the session
directories that exist, and the files inside them keyed by
(session id, filename) with their byte contents. -/
structure FileSystem where
  dirs : List String
  files : List (String × String × List Nat)
deriving DecidableEq

/-- An HTTP response: status, headers in the order they were added, body. -/
structure Response where
  status : Nat
  headers : List (String × String)
  body : String
deriving DecidableEq

/-- The result of one handler call: a response together with the filesystem
left behind and the callback events fired, or a Go runtime panic (out-of-range
slicing). -/
inductive Outcome where
  | ok (resp : Response) (fs : FileSystem) (events : List Ev)
  | panic
deriving DecidableEq

def FileSystem.dirExists (fs : FileSystem) (uuid : String) : Bool :=
  fs.dirs.contains uuid

def FileSystem.findFile (fs : FileSystem) (uuid filename : String) : Option (List Nat) :=
  match fs.files.find? (fun e => e.1 == uuid && e.2.1 == filename) with
  | some e => some e.2.2
  | none => none

def setFileList (uuid filename : String) (content : List Nat) :
    List (String × String × List Nat) → List (String × String × List Nat)
  | [] => [(uuid, filename, content)]
  | e :: rest =>
    if e.1 == uuid && e.2.1 == filename then (uuid, filename, content) :: rest
    else e :: setFileList uuid filename content rest

def FileSystem.setFile (fs : FileSystem) (uuid filename : String) (content : List Nat) :
    FileSystem :=
  FileSystem.mk fs.dirs (setFileList uuid filename content fs.files)

def FileSystem.addDir (fs : FileSystem) (uuid : String) : FileSystem :=
  FileSystem.mk (fs.dirs ++ [uuid]) fs.files

/-- `ErrorContextRemoteFile`, the only error context the handlers use. -/
def remoteFile : Nat := 5

/-- `bitsError` from gobits.go: the Ack packet marker, the session id when one
is supplied, and the two hex-encoded error fields.  `pre` holds headers the
caller already added to the response (the 416 paths add one). -/
def bitsError (pre : List (String × String)) (uuid : String) (status code context : Nat) :
    Response :=
  Response.mk status
    (pre ++ [("BITS-Packet-Type", "Ack")]
      ++ (if uuid = "" then [] else [("BITS-Session-Id", uuid)])
      ++ [("BITS-Error-Code", formatNat 16 code), ("BITS-Error-Context", formatNat 16 context)])
    ""

/-- The two pattern loops of `bitsFragment` share this shape: scan the
patterns in order; a `regexp.MatchString` error (modelled as `none` from the
matcher) stops the scan with `none`, a match stops it with `some true`, and
falling off the end gives `some false`. -/
def scanPatterns (matcher : String → String → Option Bool) (filename : String) :
    List String → Option Bool
  | [] => some false
  | reg :: rest =>
    match matcher reg filename with
    | none => none
    | some true => some true
    | some false => scanPatterns matcher filename rest

/-- The filename filter block of `bitsFragment` (blacklist loop, then
whitelist loop); `true` means the request is rejected with 400.  A match or a
matcher error in the blacklist rejects; otherwise the whitelist must produce a
match, and a matcher error there rejects as well. -/
def filterBlock (matcher : String → String → Option Bool) (disallowed allowed : List String)
    (filename : String) : Bool :=
  match scanPatterns matcher filename disallowed with
  | none => true
  | some true => true
  | some false =>
    match scanPatterns matcher filename allowed with
    | none => true
    | some b => !b

/-- The tail of `bitsFragment` from the sanity checks onward, with the file
size the handler computed (`fileSize`) and the existing file content (`old`)
as parameters.  The file handle was opened write-only at position zero, so the
written block replaces the corresponding prefix of the old content. -/
def fragmentRangePhase (uuid filename : String) (old : List Nat)
    (fileSize rangeStart rangeEnd fileLength fragmentSize : Nat) (data : List Nat)
    (fs : FileSystem) : Outcome :=
  if rangeEnd < fileSize then
    Outcome.ok
      (bitsError [("BITS-Recieved-Content-Range", formatNat 10 fileSize)] uuid 416 0 remoteFile)
      fs []
  else if rangeStart > fileSize then
    Outcome.ok
      (bitsError [("BITS-Recieved-Content-Range", formatNat 10 fileSize)] uuid 416 0 remoteFile)
      fs []
  else
    let dataOffset := sub64 fileSize rangeStart
    if data.length < dataOffset then Outcome.panic
    else
      let block := data.drop dataOffset
      let written := block.length
      let fs2 := fs.setFile uuid filename (block ++ old.drop written)
      if written ≠ sub64 fragmentSize dataOffset then
        Outcome.ok (bitsError [] uuid 500 0 remoteFile) fs2 []
      else
        Outcome.ok
          (Response.mk 200
            [("BITS-Packet-Type", "Ack"), ("BITS-Session-Id", uuid),
             ("BITS-Received-Content-Range", formatNat 10 (add64 fileSize written))]
            "")
          fs2
          (if add64 rangeEnd 1 = fileLength then [Ev.recieveFile uuid filename] else [])

/-- `bitsFragment` from gobits.go, check for check.  Note the source's
open-or-create block: when the file exists it is opened `O_CREATE|O_WRONLY`
and `fileSize` is set to 0; when it does not exist it is opened
`O_APPEND|O_WRONLY` without `O_CREATE`, which fails and yields 500. -/
def bitsFragment (cfg : Config) (matcher : String → String → Option Bool) (fs : FileSystem)
    (uuid : String) (r : Request) : Outcome :=
  if uuid = "" then Outcome.ok (bitsError [] "" 400 0 remoteFile) fs []
  else if ¬ fs.dirExists uuid then Outcome.ok (bitsError [] uuid 400 0 remoteFile) fs []
  else
    let filename := pathSplitFile r.requestURI
    if filename = "" then Outcome.ok (bitsError [] uuid 400 0 remoteFile) fs []
    else if filterBlock matcher cfg.disallowed cfg.allowed filename then
      Outcome.ok (bitsError [] uuid 400 0 remoteFile) fs []
    else
      match parseRange r.contentRange with
      | none => Outcome.ok (bitsError [] uuid 400 0 remoteFile) fs []
      | some (rangeStart, rangeEnd, fileLength) =>
        if cfg.maxSize > 0 ∧ fileLength > cfg.maxSize then
          Outcome.ok (bitsError [] uuid 413 0 remoteFile) fs []
        else
          match parseUint64 r.contentLength.data with
          | none => Outcome.ok (bitsError [] uuid 400 0 remoteFile) fs []
          | some fragmentSize =>
            let data := r.body
            if data.length ≠ fragmentSize then
              Outcome.ok (bitsError [] uuid 400 0 remoteFile) fs []
            else if add64 (sub64 rangeEnd rangeStart) 1 ≠ fragmentSize then
              Outcome.ok (bitsError [] uuid 400 0 remoteFile) fs []
            else
              match fs.findFile uuid filename with
              | some old =>
                fragmentRangePhase uuid filename old 0 rangeStart rangeEnd fileLength
                  fragmentSize data fs
              | none => Outcome.ok (bitsError [] uuid 500 0 remoteFile) fs []

/-- `bitsCancel` from gobits.go: existence checks, the cancel event, and an
acknowledgement.  The filesystem is returned unchanged. -/
def bitsCancel (fs : FileSystem) (uuid : String) : Outcome :=
  if uuid = "" then Outcome.ok (bitsError [] uuid 400 0 remoteFile) fs []
  else if ¬ fs.dirExists uuid then Outcome.ok (bitsError [] uuid 400 0 remoteFile) fs []
  else
    Outcome.ok
      (Response.mk 200 [("BITS-Packet-Type", "Ack"), ("BITS-Session-Id", uuid)] "")
      fs [Ev.cancelSession uuid]

/-- `bitsClose` from gobits.go: same shape as `bitsCancel` with the close
event.  The filesystem is returned unchanged. -/
def bitsClose (fs : FileSystem) (uuid : String) : Outcome :=
  if uuid = "" then Outcome.ok (bitsError [] uuid 400 0 remoteFile) fs []
  else if ¬ fs.dirExists uuid then Outcome.ok (bitsError [] uuid 400 0 remoteFile) fs []
  else
    Outcome.ok
      (Response.mk 200 [("BITS-Packet-Type", "Ack"), ("BITS-Session-Id", uuid)] "")
      fs [Ev.closeSession uuid]

/-- The protocol loop of `bitsCreate`: `protocol` ranges over the advertised
list and the loop breaks on the entry equal to `cfg.AllowedMethod` (sic), so
after the loop it holds the first such entry or else the last list entry. -/
def scanProtocols (allowedMethod : String) : List String → String
  | [] => ""
  | [p] => p
  | p :: q :: rest => if p = allowedMethod then p else scanProtocols allowedMethod (q :: rest)

/-- `bitsCreate` from gobits.go.  The fresh random UUID is a parameter;
UUID-generation and MkdirAll failures (both 500) are not modelled. -/
def bitsCreate (cfg : Config) (fs : FileSystem) (r : Request) (newUuid : String) : Outcome :=
  let protocols := (splitOn1 ' ' r.supportedProtocols.data).map String.mk
  let protocol := scanProtocols cfg.allowedMethod protocols
  if protocol ≠ cfg.protocol then Outcome.ok (bitsError [] "" 400 0 remoteFile) fs []
  else
    Outcome.ok
      (Response.mk 200
        [("BITS-Packet-Type", "Ack"), ("BITS-Protocol", protocol),
         ("BITS-Session-Id", newUuid), ("Accept-Encoding", "Identity")]
        "")
      (fs.addDir newUuid) [Ev.createSession newUuid]

/-- `ServeHTTP` from gobits.go: the method gate and the packet-type switch. -/
def serveHTTP (cfg : Config) (matcher : String → String → Option Bool) (fs : FileSystem)
    (r : Request) (newUuid : String) : Outcome :=
  if r.method ≠ cfg.allowedMethod then
    Outcome.ok
      (Response.mk 405
        [("Content-Type", "text/plain; charset=utf-8"), ("X-Content-Type-Options", "nosniff")]
        "Method not allowed\n")
      fs []
  else
    let packetType := lowerStr r.packetType
    if packetType = "ping" then
      Outcome.ok (Response.mk 200 [("BITS-Packet-Type", "Ack")] "") fs []
    else if packetType = "create-session" then bitsCreate cfg fs r newUuid
    else if packetType = "cancel-session" then bitsCancel fs r.sessionId
    else if packetType = "close-session" then bitsClose fs r.sessionId
    else if packetType = "fragment" then bitsFragment cfg matcher fs r.sessionId r
    else Outcome.ok (bitsError [] "" 400 0 remoteFile) fs []

/-! Helper lemmas about the arithmetic and parsing layers. -/

theorem sub64_of_le {a b : Nat} (hba : b ≤ a) (ha : a < U64) : sub64 a b = a - b := by
  unfold sub64
  rw [Nat.sub_add_comm hba, Nat.add_mod_right]
  exact Nat.mod_eq_of_lt (lt_of_le_of_lt (Nat.sub_le a b) ha)

theorem parseUint64_lt {s : List Char} {v : Nat} (h : parseUint64 s = some v) : v < U64 := by
  simp only [parseUint64] at h
  split at h
  · exact absurd h (by simp)
  · split at h
    · split at h
      · cases h
        assumption
      · exact absurd h (by simp)
    · exact absurd h (by simp)

theorem parseRange_lt {str : String} {s e L : Nat} (h : parseRange str = some (s, e, L)) :
    s < U64 ∧ e < U64 ∧ L < U64 := by
  simp only [parseRange] at h
  split at h
  · split at h
    · split at h
      · split at h
        · split at h
          · cases h
            exact ⟨parseUint64_lt (by assumption), parseUint64_lt (by assumption),
              parseUint64_lt (by assumption)⟩
          · exact absurd h (by simp)
        · exact absurd h (by simp)
      · exact absurd h (by simp)
    · exact absurd h (by simp)
  · exact absurd h (by simp)

/-! Helper lemmas about the pattern-scanning loops. -/

theorem scanPatterns_not_false {matcher : String → String → Option Bool} {filename : String}
    {l : List String} (h : ∃ p ∈ l, matcher p filename = some true) :
    scanPatterns matcher filename l = none ∨ scanPatterns matcher filename l = some true := by
  induction l with
  | nil => simp at h
  | cons a t ih =>
    obtain ⟨p, hp, hm⟩ := h
    simp only [scanPatterns]
    cases hma : matcher a filename with
    | none => exact Or.inl rfl
    | some b =>
      cases b with
      | true => exact Or.inr rfl
      | false =>
        rcases List.mem_cons.mp hp with hpa | hpt
        · rw [hpa] at hm
          rw [hm] at hma
          cases hma
        · exact ih ⟨p, hpt, hm⟩

theorem scanPatterns_ne_none {matcher : String → String → Option Bool} {filename : String}
    {l : List String} (h : ∀ p ∈ l, (matcher p filename).isSome) :
    scanPatterns matcher filename l ≠ none := by
  induction l with
  | nil => simp [scanPatterns]
  | cons a t ih =>
    simp only [scanPatterns]
    cases hma : matcher a filename with
    | none =>
      have := h a (List.mem_cons_self a t)
      rw [hma] at this
      cases this
    | some b =>
      cases b with
      | true => simp
      | false => exact ih (fun p hp => h p (List.mem_cons_of_mem a hp))

theorem scanPatterns_true_iff {matcher : String → String → Option Bool} {filename : String}
    {l : List String} (h : ∀ p ∈ l, (matcher p filename).isSome) :
    scanPatterns matcher filename l = some true ↔ ∃ p ∈ l, matcher p filename = some true := by
  induction l with
  | nil => simp [scanPatterns]
  | cons a t ih =>
    simp only [scanPatterns]
    cases hma : matcher a filename with
    | none =>
      have := h a (List.mem_cons_self a t)
      rw [hma] at this
      cases this
    | some b =>
      cases b with
      | true => simp [hma, List.mem_cons]
      | false =>
        rw [ih (fun p hp => h p (List.mem_cons_of_mem a hp))]
        constructor
        · rintro ⟨p, hp, hm⟩
          exact ⟨p, List.mem_cons_of_mem a hp, hm⟩
        · rintro ⟨p, hp, hm⟩
          rcases List.mem_cons.mp hp with hpa | hpt
          · rw [hpa] at hm
            rw [hm] at hma
            cases hma
          · exact ⟨p, hpt, hm⟩

/-! Claim C1. -/

/-- C1: the claim says the current size used by the gap/overlap decision is
the on-disk size (0 for a missing file), that the file is created on the
first fragment, and that the first fragment does not fail merely because the
file does not yet exist.  The code has the open-or-create branches inverted:
with a valid session and a valid first fragment for a file that does not
exist yet, the handler answers 500 and creates nothing (first conjunct); and
for a file that does exist with two bytes on disk, the computed current size
is 0, so a perfectly aligned fragment starting at offset 2 is rejected as a
gap with 416 (second conjunct). -/
theorem c1_fragment_open_logic_inverted :
    (bitsFragment
        (Config.mk "BITS_POST" "\x7b7df0354d-249b-430f-820d-3d2a9bef4931\x7d" 0 [".*"] [])
        (fun _ _ => some true) (FileSystem.mk ["s1"] []) "s1"
        (Request.mk "BITS_POST" "Fragment" "s1" "/up/file.bin" "" "bytes 0-4/10" "5"
          [1, 2, 3, 4, 5])
      = Outcome.ok (bitsError [] "s1" 500 0 remoteFile) (FileSystem.mk ["s1"] []) [])
    ∧ (bitsFragment
        (Config.mk "BITS_POST" "\x7b7df0354d-249b-430f-820d-3d2a9bef4931\x7d" 0 [".*"] [])
        (fun _ _ => some true) (FileSystem.mk ["s1"] [("s1", "file.bin", [9, 9])]) "s1"
        (Request.mk "BITS_POST" "Fragment" "s1" "/up/file.bin" "" "bytes 2-3/10" "2" [1, 2])
      = Outcome.ok (bitsError [("BITS-Recieved-Content-Range", "0")] "s1" 416 0 remoteFile)
          (FileSystem.mk ["s1"] [("s1", "file.bin", [9, 9])]) []) := by
  decide

/-! Claim C3. -/

/-- C3 counterexample: on a cancel-session and a close-session request for an
existing session, the handler acknowledges but returns the filesystem
unchanged — the session directory (and the file inside it) still exists
afterwards, refuting the claim that the handler removes the session
directory before acknowledging. -/
theorem c3_cancel_close_leave_directory :
    (bitsCancel (FileSystem.mk ["s1"] [("s1", "f.bin", [7])]) "s1"
      = Outcome.ok
          (Response.mk 200 [("BITS-Packet-Type", "Ack"), ("BITS-Session-Id", "s1")] "")
          (FileSystem.mk ["s1"] [("s1", "f.bin", [7])]) [Ev.cancelSession "s1"])
    ∧ (bitsClose (FileSystem.mk ["s1"] [("s1", "f.bin", [7])]) "s1"
      = Outcome.ok
          (Response.mk 200 [("BITS-Packet-Type", "Ack"), ("BITS-Session-Id", "s1")] "")
          (FileSystem.mk ["s1"] [("s1", "f.bin", [7])]) [Ev.closeSession "s1"])
    ∧ (FileSystem.mk ["s1"] [("s1", "f.bin", [7])]).dirExists "s1" = true := by
  decide

/-- C3 amended: for every cancel-session or close-session request whose
session id is non-empty and whose session directory exists, the handler fires
the corresponding callback event and acknowledges with the Ack marker and the
session id, but leaves the filesystem — in particular the session directory
and everything under it — unchanged; removal is delegated to the callback. -/
theorem c3_cancel_close_ack_without_removal (fs : FileSystem) (uuid : String)
    (h1 : uuid ≠ "") (h2 : fs.dirExists uuid = true) :
    bitsCancel fs uuid
      = Outcome.ok
          (Response.mk 200 [("BITS-Packet-Type", "Ack"), ("BITS-Session-Id", uuid)] "")
          fs [Ev.cancelSession uuid]
    ∧ bitsClose fs uuid
      = Outcome.ok
          (Response.mk 200 [("BITS-Packet-Type", "Ack"), ("BITS-Session-Id", uuid)] "")
          fs [Ev.closeSession uuid] := by
  constructor
  · simp [bitsCancel, h1, h2]
  · simp [bitsClose, h1, h2]

/-- C3 witness: the amended theorem applied to a concrete existing session. -/
theorem c3_cancel_close_ack_without_removal_witness :
    bitsCancel (FileSystem.mk ["a"] []) "a"
      = Outcome.ok
          (Response.mk 200 [("BITS-Packet-Type", "Ack"), ("BITS-Session-Id", "a")] "")
          (FileSystem.mk ["a"] []) [Ev.cancelSession "a"]
    ∧ bitsClose (FileSystem.mk ["a"] []) "a"
      = Outcome.ok
          (Response.mk 200 [("BITS-Packet-Type", "Ack"), ("BITS-Session-Id", "a")] "")
          (FileSystem.mk ["a"] []) [Ev.closeSession "a"] :=
  c3_cancel_close_ack_without_removal (FileSystem.mk ["a"] []) "a" (by decide) (by decide)

/-! Claim C4. -/

/-- C4: the claim says session creation succeeds iff the advertised
`BITS-Supported-Protocols` set contains the configured protocol, regardless
of other entries or their order.  The protocol loop actually compares each
entry against `cfg.AllowedMethod` (a slip: the older copy of this code
compares against `cfg.Protocol`), so after the loop `protocol` is the first
entry equal to the allowed method or else the last entry.  First conjunct:
with the default configuration, a set that contains the configured protocol
followed by one more entry is rejected with 400.  Second conjunct: the same
two entries in the opposite order are accepted — acceptance depends on
position, not membership. -/
theorem c4_protocol_check_compares_allowed_method :
    (bitsCreate
        (Config.mk "BITS_POST" "\x7b7df0354d-249b-430f-820d-3d2a9bef4931\x7d" 0 [".*"] [])
        (FileSystem.mk [] [])
        (Request.mk "BITS_POST" "Create-Session" "" ""
          "\x7b7df0354d-249b-430f-820d-3d2a9bef4931\x7d zzz" "" "" [])
        "11111111-2222-3333-4444-555555555555"
      = Outcome.ok (bitsError [] "" 400 0 remoteFile) (FileSystem.mk [] []) [])
    ∧ (bitsCreate
        (Config.mk "BITS_POST" "\x7b7df0354d-249b-430f-820d-3d2a9bef4931\x7d" 0 [".*"] [])
        (FileSystem.mk [] [])
        (Request.mk "BITS_POST" "Create-Session" "" ""
          "zzz \x7b7df0354d-249b-430f-820d-3d2a9bef4931\x7d" "" "" [])
        "11111111-2222-3333-4444-555555555555"
      = Outcome.ok
          (Response.mk 200
            [("BITS-Packet-Type", "Ack"),
             ("BITS-Protocol", "\x7b7df0354d-249b-430f-820d-3d2a9bef4931\x7d"),
             ("BITS-Session-Id", "11111111-2222-3333-4444-555555555555"),
             ("Accept-Encoding", "Identity")] "")
          (FileSystem.mk ["11111111-2222-3333-4444-555555555555"] [])
          [Ev.createSession "11111111-2222-3333-4444-555555555555"]) := by
  decide

/-! Claim C7. -/

/-- C7: the claim says 416 rejections carry a header named
`BITS-Received-Content-Range` with the current size.  On both 416 paths the
code spells the header `BITS-Recieved-Content-Range` (the success path and
the protocol documentation spell it `Received`), so a gap rejection carries
the misspelled header with value "0" and no header with the claimed name. -/
theorem c7_resync_header_misspelled_on_416 :
    (bitsFragment
        (Config.mk "BITS_POST" "\x7b7df0354d-249b-430f-820d-3d2a9bef4931\x7d" 0 [".*"] [])
        (fun _ _ => some true) (FileSystem.mk ["s1"] [("s1", "file.bin", [9, 9])]) "s1"
        (Request.mk "BITS_POST" "Fragment" "s1" "/up/file.bin" "" "bytes 3-5/10" "3" [1, 2, 3])
      = Outcome.ok (bitsError [("BITS-Recieved-Content-Range", "0")] "s1" 416 0 remoteFile)
          (FileSystem.mk ["s1"] [("s1", "file.bin", [9, 9])]) [])
    ∧ ((bitsError [("BITS-Recieved-Content-Range", "0")] "s1" 416 0 remoteFile).headers.any
        (fun hd => hd.1 == "BITS-Received-Content-Range")) = false
    ∧ ((bitsError [("BITS-Recieved-Content-Range", "0")] "s1" 416 0 remoteFile).headers.contains
        ("BITS-Recieved-Content-Range", "0")) = true := by
  decide

theorem scanPatterns_all_false {matcher : String → String → Option Bool} {filename : String}
    {l : List String} (h : ∀ p ∈ l, matcher p filename = some false) :
    scanPatterns matcher filename l = some false := by
  induction l with
  | nil => rfl
  | cons a t ih =>
    simp only [scanPatterns]
    rw [h a (List.mem_cons_self a t)]
    exact ih (fun p hp => h p (List.mem_cons_of_mem a hp))

theorem filterBlock_true_of_deny {matcher : String → String → Option Bool}
    {fn : String} {dis al : List String}
    (h : scanPatterns matcher fn dis = none ∨ scanPatterns matcher fn dis = some true) :
    filterBlock matcher dis al fn = true := by
  unfold filterBlock
  rcases h with h | h <;> rw [h]

theorem filterBlock_eq_of_scans {matcher : String → String → Option Bool}
    {fn : String} {dis al : List String} {b : Bool}
    (h1 : scanPatterns matcher fn dis = some false)
    (h2 : scanPatterns matcher fn al = some b) :
    filterBlock matcher dis al fn = !b := by
  unfold filterBlock
  rw [h1, h2]

theorem bitsFragment_filter_reject {cfg : Config} {matcher : String → String → Option Bool}
    {fs : FileSystem} {uuid : String} {r : Request}
    (huuid : uuid ≠ "") (hdir : fs.dirExists uuid = true)
    (hfn : pathSplitFile r.requestURI ≠ "")
    (hfb : filterBlock matcher cfg.disallowed cfg.allowed (pathSplitFile r.requestURI) = true) :
    bitsFragment cfg matcher fs uuid r
      = Outcome.ok (bitsError [] uuid 400 0 remoteFile) fs [] := by
  simp only [bitsFragment]
  rw [if_neg huuid, if_neg (not_not_intro hdir), if_neg hfn, if_pos hfb]

/-! Claim C2. -/

/-- C2: the gap/overlap decision of `bitsFragment` (its tail, with the
handler's computed current size as the `fileSize` parameter and the fragment
size equal to the payload length, as the preceding checks establish): a
fragment ending before the current size is rejected with 416 and nothing is
written; a fragment starting past the current size is rejected with 416 and
nothing is written; otherwise exactly the payload suffix from index
`fileSize - rangeStart` onward is written — `data.length - (fileSize -
rangeStart)` bytes — and the write replaces that many bytes at the start of
the file (the handle is at position zero). -/
theorem c2_gap_overlap_decision (uuid filename : String) (old : List Nat)
    (fileSize rangeStart rangeEnd fileLength : Nat) (data : List Nat) (fs : FileSystem)
    (hS : fileSize < U64)
    (hwidth : rangeEnd + 1 = data.length + rangeStart) (hlen : data.length < U64) :
    (rangeEnd < fileSize →
      fragmentRangePhase uuid filename old fileSize rangeStart rangeEnd fileLength
          data.length data fs
        = Outcome.ok
            (bitsError [("BITS-Recieved-Content-Range", formatNat 10 fileSize)] uuid 416 0
              remoteFile)
            fs [])
    ∧ (fileSize ≤ rangeEnd → fileSize < rangeStart →
      fragmentRangePhase uuid filename old fileSize rangeStart rangeEnd fileLength
          data.length data fs
        = Outcome.ok
            (bitsError [("BITS-Recieved-Content-Range", formatNat 10 fileSize)] uuid 416 0
              remoteFile)
            fs [])
    ∧ (rangeStart ≤ fileSize → fileSize ≤ rangeEnd →
      fragmentRangePhase uuid filename old fileSize rangeStart rangeEnd fileLength
          data.length data fs
        = Outcome.ok
            (Response.mk 200
              [("BITS-Packet-Type", "Ack"), ("BITS-Session-Id", uuid),
               ("BITS-Received-Content-Range",
                 formatNat 10 (add64 fileSize (data.length - (fileSize - rangeStart))))]
              "")
            (fs.setFile uuid filename
              (data.drop (fileSize - rangeStart)
                ++ old.drop (data.length - (fileSize - rangeStart))))
            (if add64 rangeEnd 1 = fileLength then [Ev.recieveFile uuid filename] else [])
        ∧ (data.drop (fileSize - rangeStart)).length
            = data.length - (fileSize - rangeStart)) := by
  refine ⟨?_, ?_, ?_⟩
  · intro h
    simp only [fragmentRangePhase]
    rw [if_pos h]
  · intro h2 h1
    simp only [fragmentRangePhase]
    rw [if_neg (not_lt.mpr h2), if_pos h1]
  · intro h1 h2
    have hoff : sub64 fileSize rangeStart = fileSize - rangeStart := sub64_of_le h1 hS
    have hofflt : fileSize - rangeStart < data.length := by omega
    have hdlen : (data.drop (fileSize - rangeStart)).length
        = data.length - (fileSize - rangeStart) := by simp
    refine ⟨?_, hdlen⟩
    simp only [fragmentRangePhase]
    rw [if_neg (not_lt.mpr h2), if_neg (not_lt.mpr h1), hoff,
      if_neg (not_lt.mpr (le_of_lt hofflt)),
      sub64_of_le (le_of_lt hofflt) hlen, hdlen, if_neg (by simp)]

/-- C2 witness: the accepting branch of the decision at a concrete overlap —
current size 2, range 0..4, five payload bytes — writes exactly the last
three payload bytes. -/
theorem c2_gap_overlap_decision_witness :
    ((0 : Nat) ≤ 2 ∧ (2 : Nat) ≤ 4)
    ∧ (fragmentRangePhase "s1" "f.bin" [1, 2] 2 0 4 9 5 [1, 2, 30, 40, 50]
          (FileSystem.mk ["s1"] [("s1", "f.bin", [1, 2])])
        = Outcome.ok
            (Response.mk 200
              [("BITS-Packet-Type", "Ack"), ("BITS-Session-Id", "s1"),
               ("BITS-Received-Content-Range", "5")]
              "")
            (FileSystem.mk ["s1"] [("s1", "f.bin", [30, 40, 50])]) []
        ∧ ([1, 2, 30, 40, 50].drop (2 - 0)).length = 5 - (2 - 0)) :=
  ⟨by decide,
    (c2_gap_overlap_decision "s1" "f.bin" [1, 2] 2 0 4 9 [1, 2, 30, 40, 50]
      (FileSystem.mk ["s1"] [("s1", "f.bin", [1, 2])])
      (by decide) (by decide) (by decide)).2.2 (by decide) (by decide)⟩

/-! Claim C8. -/

/-- C8: with a valid session and a non-empty filename, a fragment whose
filename matches any deny pattern is rejected with 400 (no matter what the
allow patterns say — the deny loop runs first and short-circuits), and when
no deny pattern matches, the filter lets the filename through precisely when
at least one allow pattern matches (provided the patterns compile, i.e. the
matcher is defined on them). -/
theorem c8_filter_deny_first_allow_membership (cfg : Config)
    (matcher : String → String → Option Bool) (fs : FileSystem) (uuid : String) (r : Request)
    (huuid : uuid ≠ "") (hdir : fs.dirExists uuid = true)
    (hfn : pathSplitFile r.requestURI ≠ "") :
    ((∃ p ∈ cfg.disallowed, matcher p (pathSplitFile r.requestURI) = some true) →
        filterBlock matcher cfg.disallowed cfg.allowed (pathSplitFile r.requestURI) = true
        ∧ bitsFragment cfg matcher fs uuid r
            = Outcome.ok (bitsError [] uuid 400 0 remoteFile) fs [])
    ∧ ((∀ p ∈ cfg.disallowed, matcher p (pathSplitFile r.requestURI) = some false) →
        (∀ p ∈ cfg.allowed, (matcher p (pathSplitFile r.requestURI)).isSome) →
        (filterBlock matcher cfg.disallowed cfg.allowed (pathSplitFile r.requestURI) = false
          ↔ ∃ p ∈ cfg.allowed, matcher p (pathSplitFile r.requestURI) = some true)) := by
  constructor
  · intro hex
    have hfb := @filterBlock_true_of_deny matcher (pathSplitFile r.requestURI) cfg.disallowed
      cfg.allowed (scanPatterns_not_false hex)
    exact ⟨hfb, bitsFragment_filter_reject huuid hdir hfn hfb⟩
  · intro hall hsome
    have hdis := scanPatterns_all_false hall
    cases hal : scanPatterns matcher (pathSplitFile r.requestURI) cfg.allowed with
    | none => exact absurd hal (scanPatterns_ne_none hsome)
    | some b =>
      rw [filterBlock_eq_of_scans hdis hal]
      cases b with
      | true =>
        exact iff_of_true rfl ((scanPatterns_true_iff hsome).mp hal)
      | false =>
        constructor
        · intro hcontra
          exact absurd hcontra (by decide)
        · intro hex2
          have h2 := (scanPatterns_true_iff hsome).mpr hex2
          rw [hal] at h2
          simp at h2

/-- C8 witness: a filename matching the single deny pattern is rejected even
though matching the allow set would be possible; and with no deny pattern at
all, permission is equivalent to an allow match. -/
theorem c8_filter_deny_first_allow_membership_witness :
    ((∃ p ∈ ["de"], (fun p _ => some (p == "de") : String → String → Option Bool) p
        (pathSplitFile "/x/f.exe") = some true) →
      filterBlock (fun p _ => some (p == "de")) ["de"] ["al"] (pathSplitFile "/x/f.exe") = true
      ∧ bitsFragment (Config.mk "m" "p" 0 ["al"] ["de"]) (fun p _ => some (p == "de"))
          (FileSystem.mk ["s1"] []) "s1" (Request.mk "m" "Fragment" "s1" "/x/f.exe" "" "" "" [])
          = Outcome.ok (bitsError [] "s1" 400 0 remoteFile) (FileSystem.mk ["s1"] []) [])
    ∧ ((∀ p ∈ ["de"], (fun p _ => some (p == "de") : String → String → Option Bool) p
          (pathSplitFile "/x/f.exe") = some false) →
       (∀ p ∈ ["al"], ((fun p _ => some (p == "de") : String → String → Option Bool) p
          (pathSplitFile "/x/f.exe")).isSome) →
       (filterBlock (fun p _ => some (p == "de")) ["de"] ["al"] (pathSplitFile "/x/f.exe") = false
         ↔ ∃ p ∈ ["al"], (fun p _ => some (p == "de") : String → String → Option Bool) p
             (pathSplitFile "/x/f.exe") = some true)) :=
  c8_filter_deny_first_allow_membership (Config.mk "m" "p" 0 ["al"] ["de"])
    (fun p _ => some (p == "de")) (FileSystem.mk ["s1"] []) "s1"
    (Request.mk "m" "Fragment" "s1" "/x/f.exe" "" "" "" [])
    (by decide) (by decide) (by decide)

/-! Claim C10. -/

/-- C10 counterexample: with `range_start = range_end + 1` and an empty
payload, the wrapped width `range_end - range_start + 1` is 0 and equals the
payload byte count, so the width check passes (refuting "can never equal"),
and the request is then rejected with 416 by the gap check rather than with
the claimed bad-request outcome. -/
theorem c10_degenerate_inverted_range_passes_width :
    (parseRange "bytes 1-0/5" = some (1, 0, 5))
    ∧ add64 (sub64 0 1) 1 = ([] : List Nat).length
    ∧ (bitsFragment
        (Config.mk "BITS_POST" "\x7b7df0354d-249b-430f-820d-3d2a9bef4931\x7d" 0 [".*"] [])
        (fun _ _ => some true) (FileSystem.mk ["s1"] [("s1", "file.bin", [9])]) "s1"
        (Request.mk "BITS_POST" "Fragment" "s1" "/up/file.bin" "" "bytes 1-0/5" "0" [])
      = Outcome.ok (bitsError [("BITS-Recieved-Content-Range", "0")] "s1" 416 0 remoteFile)
          (FileSystem.mk ["s1"] [("s1", "file.bin", [9])]) [])
    ∧ (bitsError [("BITS-Recieved-Content-Range", "0")] "s1" 416 0 remoteFile).status ≠ 400 := by
  decide

/-- C10 amended: every fragment request whose `Content-Range` parses with
`range_start > range_end` is rejected — with some error status among 400,
413, 416 and 500, not necessarily bad-request — and no bytes are ever
written (the filesystem is unchanged and no event fires): when the wrapped
width check happens to pass, `range_start ≥ 1` exceeds the computed current
size 0 and the gap check rejects with 416. -/
theorem c10_inverted_range_always_rejected (cfg : Config)
    (matcher : String → String → Option Bool) (fs : FileSystem) (uuid : String) (r : Request)
    (s e L : Nat) (hp : parseRange r.contentRange = some (s, e, L)) (hse : e < s) :
    ∃ resp : Response,
      bitsFragment cfg matcher fs uuid r = Outcome.ok resp fs []
      ∧ (resp.status = 400 ∨ resp.status = 413 ∨ resp.status = 416 ∨ resp.status = 500) := by
  simp only [bitsFragment]
  split
  · exact ⟨_, rfl, Or.inl rfl⟩
  split
  · exact ⟨_, rfl, Or.inl rfl⟩
  split
  · exact ⟨_, rfl, Or.inl rfl⟩
  split
  · exact ⟨_, rfl, Or.inl rfl⟩
  split
  · exact ⟨_, rfl, Or.inl rfl⟩
  rename_i rs re fl heq
  rw [hp] at heq
  simp only [Option.some.injEq, Prod.mk.injEq] at heq
  obtain ⟨h1, h2, h3⟩ := heq
  subst h1 h2 h3
  split
  · exact ⟨_, rfl, Or.inr (Or.inl rfl)⟩
  split
  · exact ⟨_, rfl, Or.inl rfl⟩
  split
  · exact ⟨_, rfl, Or.inl rfl⟩
  split
  · exact ⟨_, rfl, Or.inl rfl⟩
  split
  · simp only [fragmentRangePhase]
    rw [if_neg (Nat.not_lt_zero e), if_pos (by omega : s > 0)]
    exact ⟨_, rfl, Or.inr (Or.inr (Or.inl rfl))⟩
  · exact ⟨_, rfl, Or.inr (Or.inr (Or.inr rfl))⟩

/-- C10 witness: the amended theorem at the degenerate concrete input
`bytes 1-0/5` with empty payload. -/
theorem c10_inverted_range_always_rejected_witness :
    ∃ resp : Response,
      bitsFragment
          (Config.mk "BITS_POST" "\x7b7df0354d-249b-430f-820d-3d2a9bef4931\x7d" 0 [".*"] [])
          (fun _ _ => some true) (FileSystem.mk ["s1"] [("s1", "file.bin", [9])]) "s1"
          (Request.mk "BITS_POST" "Fragment" "s1" "/up/file.bin" "" "bytes 1-0/5" "0" [])
        = Outcome.ok resp (FileSystem.mk ["s1"] [("s1", "file.bin", [9])]) []
      ∧ (resp.status = 400 ∨ resp.status = 413 ∨ resp.status = 416 ∨ resp.status = 500) :=
  c10_inverted_range_always_rejected
    (Config.mk "BITS_POST" "\x7b7df0354d-249b-430f-820d-3d2a9bef4931\x7d" 0 [".*"] [])
    (fun _ _ => some true) (FileSystem.mk ["s1"] [("s1", "file.bin", [9])]) "s1"
    (Request.mk "BITS_POST" "Fragment" "s1" "/up/file.bin" "" "bytes 1-0/5" "0" [])
    1 0 5 (by decide) (by decide)

/-! Claim C5. -/

/-- C5 counterexample: a fragment declaring `Content-Range: bytes 0-4/3` —
`range_end = 4` is not below `total_length = 3` — is nevertheless accepted
with 200 and its five payload bytes are written, refuting the claim that
every accepted fragment satisfies `range_end < total_length`. -/
theorem c5_accepts_range_end_at_or_past_total :
    (bitsFragment
        (Config.mk "BITS_POST" "\x7b7df0354d-249b-430f-820d-3d2a9bef4931\x7d" 0 [".*"] [])
        (fun _ _ => some true) (FileSystem.mk ["s1"] [("s1", "file.bin", [])]) "s1"
        (Request.mk "BITS_POST" "Fragment" "s1" "/up/file.bin" "" "bytes 0-4/3" "5"
          [1, 2, 3, 4, 5])
      = Outcome.ok
          (Response.mk 200
            [("BITS-Packet-Type", "Ack"), ("BITS-Session-Id", "s1"),
             ("BITS-Received-Content-Range", "5")]
            "")
          (FileSystem.mk ["s1"] [("s1", "file.bin", [1, 2, 3, 4, 5])]) [])
    ∧ parseRange "bytes 0-4/3" = some (0, 4, 3)
    ∧ ¬ (4 < 3) := by
  decide

/-- C5 amended: acceptance enforces only the width invariant — for every
fragment request that is accepted (answered with status 200), the wrapped
64-bit width `range_end - range_start + 1` equals the payload byte count —
while nothing enforces `range_end < total_length` (the counterexample shows a
fragment with `range_end ≥ total_length` being accepted and written). -/
theorem c5_acceptance_enforces_width_only (cfg : Config)
    (matcher : String → String → Option Bool) (fs : FileSystem) (uuid : String) (r : Request)
    (resp : Response) (fs2 : FileSystem) (evs : List Ev) (s e L : Nat)
    (h : bitsFragment cfg matcher fs uuid r = Outcome.ok resp fs2 evs)
    (h200 : resp.status = 200) (hp : parseRange r.contentRange = some (s, e, L)) :
    add64 (sub64 e s) 1 = r.body.length := by
  simp only [bitsFragment] at h
  split at h
  · cases h; simp [bitsError] at h200
  split at h
  · cases h; simp [bitsError] at h200
  split at h
  · cases h; simp [bitsError] at h200
  split at h
  · cases h; simp [bitsError] at h200
  split at h
  · cases h; simp [bitsError] at h200
  rename_i rs re fl heq
  rw [hp] at heq
  simp only [Option.some.injEq, Prod.mk.injEq] at heq
  obtain ⟨h1, h2, h3⟩ := heq
  subst h1 h2 h3
  split at h
  · cases h; simp [bitsError] at h200
  split at h
  · cases h; simp [bitsError] at h200
  rename_i n heqn
  split at h
  · cases h; simp [bitsError] at h200
  rename_i hlenOk
  split at h
  · cases h; simp [bitsError] at h200
  rename_i hwidthOk
  rw [not_ne_iff.mp hwidthOk]
  exact (not_ne_iff.mp hlenOk).symm

/-- C5 witness: the amended theorem at the accepted concrete fragment of the
counterexample, whose wrapped width 0-4 plus one is the payload length 5. -/
theorem c5_acceptance_enforces_width_only_witness :
    add64 (sub64 4 0) 1
      = (Request.mk "BITS_POST" "Fragment" "s1" "/up/file.bin" "" "bytes 0-4/3" "5"
          [1, 2, 3, 4, 5]).body.length :=
  c5_acceptance_enforces_width_only
    (Config.mk "BITS_POST" "\x7b7df0354d-249b-430f-820d-3d2a9bef4931\x7d" 0 [".*"] [])
    (fun _ _ => some true) (FileSystem.mk ["s1"] [("s1", "file.bin", [])]) "s1"
    (Request.mk "BITS_POST" "Fragment" "s1" "/up/file.bin" "" "bytes 0-4/3" "5" [1, 2, 3, 4, 5])
    (Response.mk 200
      [("BITS-Packet-Type", "Ack"), ("BITS-Session-Id", "s1"),
       ("BITS-Received-Content-Range", "5")]
      "")
    (FileSystem.mk ["s1"] [("s1", "file.bin", [1, 2, 3, 4, 5])]) [] 0 4 3
    (by decide) (by decide) (by decide)

/-! Claim C6. -/

/-- C6 counterexample: the empty fragment `bytes 0-18446744073709551615/7`
passes every check (its wrapped width is 0, the payload length) and is
acknowledged with 200, but the acknowledged cumulative size is the string
"0", not `range_end + 1 = 2^64` — the reported value is `range_end + 1`
reduced modulo `2^64`, refuting the claim's unreduced equality. -/
theorem c6_ack_wraps_to_zero :
    (bitsFragment
        (Config.mk "BITS_POST" "\x7b7df0354d-249b-430f-820d-3d2a9bef4931\x7d" 0 [".*"] [])
        (fun _ _ => some true) (FileSystem.mk ["s1"] [("s1", "file.bin", [])]) "s1"
        (Request.mk "BITS_POST" "Fragment" "s1" "/up/file.bin" ""
          "bytes 0-18446744073709551615/7" "0" [])
      = Outcome.ok
          (Response.mk 200
            [("BITS-Packet-Type", "Ack"), ("BITS-Session-Id", "s1"),
             ("BITS-Received-Content-Range", "0")]
            "")
          (FileSystem.mk ["s1"] [("s1", "file.bin", [])]) [])
    ∧ formatNat 10 (18446744073709551615 + 1) ≠ "0" := by
  decide

/-- C6 amended: for every fragment request that is accepted (status 200),
the success acknowledgement's received-content-range header carries
`current_size + bytes_appended` reduced modulo `2^64`, which equals
`(range_end + 1) % 2^64`; with the computed current size always 0, the
reported value also never falls below it. -/
theorem c6_ack_value_is_end_plus_one_mod64 (cfg : Config)
    (matcher : String → String → Option Bool) (fs : FileSystem) (uuid : String) (r : Request)
    (resp : Response) (fs2 : FileSystem) (evs : List Ev) (s e L : Nat)
    (h : bitsFragment cfg matcher fs uuid r = Outcome.ok resp fs2 evs)
    (h200 : resp.status = 200) (hp : parseRange r.contentRange = some (s, e, L)) :
    resp.headers
      = [("BITS-Packet-Type", "Ack"), ("BITS-Session-Id", uuid),
         ("BITS-Received-Content-Range", formatNat 10 (add64 e 1))] := by
  simp only [bitsFragment] at h
  split at h
  · cases h; simp [bitsError] at h200
  split at h
  · cases h; simp [bitsError] at h200
  split at h
  · cases h; simp [bitsError] at h200
  split at h
  · cases h; simp [bitsError] at h200
  split at h
  · cases h; simp [bitsError] at h200
  rename_i rs re fl heq
  rw [hp] at heq
  simp only [Option.some.injEq, Prod.mk.injEq] at heq
  obtain ⟨h1, h2, h3⟩ := heq
  subst h1 h2 h3
  split at h
  · cases h; simp [bitsError] at h200
  split at h
  · cases h; simp [bitsError] at h200
  rename_i n heqn
  split at h
  · cases h; simp [bitsError] at h200
  rename_i hlenOk
  split at h
  · cases h; simp [bitsError] at h200
  rename_i hwidthOk
  split at h
  · rename_i old heqf
    simp only [fragmentRangePhase] at h
    split at h
    · cases h; simp [bitsError] at h200
    split at h
    · cases h; simp [bitsError] at h200
    rename_i hgap
    split at h
    · exact Outcome.noConfusion h
    split at h
    · cases h; simp [bitsError] at h200
    · cases h
      have hs0 : s = 0 := by omega
      subst hs0
      have hoff : sub64 0 0 = 0 := by decide
      have hn : r.body.length = n := not_ne_iff.mp hlenOk
      have hw : add64 e 1 = n := by
        have hx := not_ne_iff.mp hwidthOk
        rwa [sub64_of_le (Nat.zero_le e) (parseRange_lt hp).2.1, Nat.sub_zero] at hx
      have h0 : add64 0 r.body.length = add64 e 1 := by
        rw [hw, hn]
        unfold add64
        rw [Nat.zero_add]
        exact Nat.mod_eq_of_lt (parseUint64_lt heqn)
      rw [hoff, List.drop_zero, h0]
  · cases h; simp [bitsError] at h200

/-- C6 witness: the amended theorem at a concrete accepted fragment 0..4 of
ten bytes total: the acknowledged value is `(4 + 1) % 2^64`, i.e. "5". -/
theorem c6_ack_value_is_end_plus_one_mod64_witness :
    (Response.mk 200
        [("BITS-Packet-Type", "Ack"), ("BITS-Session-Id", "s1"),
         ("BITS-Received-Content-Range", "5")]
        "").headers
      = [("BITS-Packet-Type", "Ack"), ("BITS-Session-Id", "s1"),
         ("BITS-Received-Content-Range", formatNat 10 (add64 4 1))] :=
  c6_ack_value_is_end_plus_one_mod64
    (Config.mk "BITS_POST" "\x7b7df0354d-249b-430f-820d-3d2a9bef4931\x7d" 0 [".*"] [])
    (fun _ _ => some true) (FileSystem.mk ["s1"] [("s1", "file.bin", [])]) "s1"
    (Request.mk "BITS_POST" "Fragment" "s1" "/up/file.bin" "" "bytes 0-4/10" "5" [1, 2, 3, 4, 5])
    (Response.mk 200
      [("BITS-Packet-Type", "Ack"), ("BITS-Session-Id", "s1"),
       ("BITS-Received-Content-Range", "5")]
      "")
    (FileSystem.mk ["s1"] [("s1", "file.bin", [1, 2, 3, 4, 5])]) [] 0 4 10
    (by decide) (by decide) (by decide)

/-! Claim C9. -/

theorem bitsFragment_error_shape {cfg : Config} {matcher : String → String → Option Bool}
    {fs : FileSystem} {uuid : String} {r : Request} {resp : Response} {fs2 : FileSystem}
    {evs : List Ev}
    (h : bitsFragment cfg matcher fs uuid r = Outcome.ok resp fs2 evs)
    (hstatus : resp.status ≠ 200) :
    ∃ pre su,
      resp.headers = pre ++ [("BITS-Packet-Type", "Ack")]
          ++ (if su = "" then [] else [("BITS-Session-Id", su)])
          ++ [("BITS-Error-Code", formatNat 16 0),
              ("BITS-Error-Context", formatNat 16 remoteFile)]
      ∧ resp.body = ""
      ∧ (pre = [] ∨ ∃ v, pre = [("BITS-Recieved-Content-Range", v)])
      ∧ (su = "" ∨ su = uuid) := by
  simp only [bitsFragment] at h
  split at h
  · cases h; exact ⟨[], "", rfl, rfl, Or.inl rfl, Or.inl rfl⟩
  split at h
  · cases h; exact ⟨[], uuid, rfl, rfl, Or.inl rfl, Or.inr rfl⟩
  split at h
  · cases h; exact ⟨[], uuid, rfl, rfl, Or.inl rfl, Or.inr rfl⟩
  split at h
  · cases h; exact ⟨[], uuid, rfl, rfl, Or.inl rfl, Or.inr rfl⟩
  split at h
  · cases h; exact ⟨[], uuid, rfl, rfl, Or.inl rfl, Or.inr rfl⟩
  split at h
  · cases h; exact ⟨[], uuid, rfl, rfl, Or.inl rfl, Or.inr rfl⟩
  split at h
  · cases h; exact ⟨[], uuid, rfl, rfl, Or.inl rfl, Or.inr rfl⟩
  split at h
  · cases h; exact ⟨[], uuid, rfl, rfl, Or.inl rfl, Or.inr rfl⟩
  split at h
  · cases h; exact ⟨[], uuid, rfl, rfl, Or.inl rfl, Or.inr rfl⟩
  split at h
  · simp only [fragmentRangePhase] at h
    split at h
    · cases h
      exact ⟨[("BITS-Recieved-Content-Range", formatNat 10 0)], uuid, rfl, rfl,
        Or.inr ⟨formatNat 10 0, rfl⟩, Or.inr rfl⟩
    split at h
    · cases h
      exact ⟨[("BITS-Recieved-Content-Range", formatNat 10 0)], uuid, rfl, rfl,
        Or.inr ⟨formatNat 10 0, rfl⟩, Or.inr rfl⟩
    split at h
    · exact Outcome.noConfusion h
    split at h
    · cases h; exact ⟨[], uuid, rfl, rfl, Or.inl rfl, Or.inr rfl⟩
    · cases h; exact absurd rfl hstatus
  · cases h; exact ⟨[], uuid, rfl, rfl, Or.inl rfl, Or.inr rfl⟩

/-- C9 counterexample: a request with an unrecognised packet type but a
non-empty session id `abc123` is answered with a 400 acknowledgement whose
headers omit `BITS-Session-Id` entirely — the session id was known from the
request, refuting the claim that it is omitted only when no session id was
ever established. -/
theorem c9_unknown_packet_omits_session :
    (serveHTTP
        (Config.mk "BITS_POST" "\x7b7df0354d-249b-430f-820d-3d2a9bef4931\x7d" 0 [".*"] [])
        (fun _ _ => some true) (FileSystem.mk [] [])
        (Request.mk "BITS_POST" "bogus" "abc123" "" "" "" "" []) "u1"
      = Outcome.ok (bitsError [] "" 400 0 remoteFile) (FileSystem.mk [] []) [])
    ∧ ((bitsError [] "" 400 0 remoteFile).headers.any
        (fun hd => hd.1 == "BITS-Session-Id")) = false
    ∧ ("abc123" : String) ≠ "" := by
  decide

/-- C9 amended: every BITS error response (status 400, 413, 416 or 500)
consists of the three fixed headers — the Ack packet-type marker and the two
error fields in lower-case hex — plus, possibly, a preceding
received-content-range header (on 416 fragment rejections), plus a
`BITS-Session-Id` header exactly when the handler passed a non-empty session
id, which can happen only on the fragment, cancel-session and close-session
paths; the unknown-packet-type and create-session paths always pass an empty
one, even when the request carries a session id.  The body is always
empty. -/
theorem c9_error_response_headers (cfg : Config)
    (matcher : String → String → Option Bool) (fs : FileSystem) (r : Request)
    (newUuid : String) (resp : Response) (fs2 : FileSystem) (evs : List Ev)
    (h : serveHTTP cfg matcher fs r newUuid = Outcome.ok resp fs2 evs)
    (hstatus : resp.status = 400 ∨ resp.status = 413 ∨ resp.status = 416 ∨ resp.status = 500) :
    ∃ pre su,
      resp.headers = pre ++ [("BITS-Packet-Type", "Ack")]
          ++ (if su = "" then [] else [("BITS-Session-Id", su)])
          ++ [("BITS-Error-Code", formatNat 16 0),
              ("BITS-Error-Context", formatNat 16 remoteFile)]
      ∧ resp.body = ""
      ∧ (pre = [] ∨ ∃ v, pre = [("BITS-Recieved-Content-Range", v)])
      ∧ (su = "" ∨ (su = r.sessionId
          ∧ (lowerStr r.packetType = "fragment" ∨ lowerStr r.packetType = "cancel-session"
              ∨ lowerStr r.packetType = "close-session"))) := by
  simp only [serveHTTP] at h
  split at h
  · cases h; rcases hstatus with h' | h' | h' | h' <;> simp at h'
  split at h
  · cases h; rcases hstatus with h' | h' | h' | h' <;> simp at h'
  split at h
  · simp only [bitsCreate] at h
    split at h
    · cases h; exact ⟨[], "", rfl, rfl, Or.inl rfl, Or.inl rfl⟩
    · cases h; rcases hstatus with h' | h' | h' | h' <;> simp at h'
  split at h
  · rename_i hpt
    simp only [bitsCancel] at h
    split at h
    · cases h
      exact ⟨[], r.sessionId, rfl, rfl, Or.inl rfl, Or.inr ⟨rfl, Or.inr (Or.inl hpt)⟩⟩
    split at h
    · cases h
      exact ⟨[], r.sessionId, rfl, rfl, Or.inl rfl, Or.inr ⟨rfl, Or.inr (Or.inl hpt)⟩⟩
    · cases h; rcases hstatus with h' | h' | h' | h' <;> simp at h'
  split at h
  · rename_i hpt
    simp only [bitsClose] at h
    split at h
    · cases h
      exact ⟨[], r.sessionId, rfl, rfl, Or.inl rfl, Or.inr ⟨rfl, Or.inr (Or.inr hpt)⟩⟩
    split at h
    · cases h
      exact ⟨[], r.sessionId, rfl, rfl, Or.inl rfl, Or.inr ⟨rfl, Or.inr (Or.inr hpt)⟩⟩
    · cases h; rcases hstatus with h' | h' | h' | h' <;> simp at h'
  split at h
  · rename_i hpt
    have hne : resp.status ≠ 200 := by rcases hstatus with h' | h' | h' | h' <;> omega
    obtain ⟨pre, su, hh, hb, hpre, hsu⟩ := bitsFragment_error_shape h hne
    refine ⟨pre, su, hh, hb, hpre, ?_⟩
    rcases hsu with h' | h'
    · exact Or.inl h'
    · exact Or.inr ⟨h', Or.inl hpt⟩
  · cases h; exact ⟨[], "", rfl, rfl, Or.inl rfl, Or.inl rfl⟩

/-- C9 witness: the amended theorem at a concrete failing cancel-session
request for an unknown session id `zz`: the error acknowledgement carries the
Ack marker, the session id and the two hex fields, with an empty body. -/
theorem c9_error_response_headers_witness :
    ∃ pre su,
      (bitsError [] "zz" 400 0 remoteFile).headers = pre ++ [("BITS-Packet-Type", "Ack")]
          ++ (if su = "" then [] else [("BITS-Session-Id", su)])
          ++ [("BITS-Error-Code", formatNat 16 0),
              ("BITS-Error-Context", formatNat 16 remoteFile)]
      ∧ (bitsError [] "zz" 400 0 remoteFile).body = ""
      ∧ (pre = [] ∨ ∃ v, pre = [("BITS-Recieved-Content-Range", v)])
      ∧ (su = "" ∨ (su = (Request.mk "BITS_POST" "Cancel-Session" "zz" "" "" "" "" []).sessionId
          ∧ (lowerStr (Request.mk "BITS_POST" "Cancel-Session" "zz" "" "" "" "" []).packetType
                = "fragment"
              ∨ lowerStr (Request.mk "BITS_POST" "Cancel-Session" "zz" "" "" "" "" []).packetType
                = "cancel-session"
              ∨ lowerStr (Request.mk "BITS_POST" "Cancel-Session" "zz" "" "" "" "" []).packetType
                = "close-session"))) :=
  c9_error_response_headers
    (Config.mk "BITS_POST" "\x7b7df0354d-249b-430f-820d-3d2a9bef4931\x7d" 0 [".*"] [])
    (fun _ _ => some true) (FileSystem.mk [] [])
    (Request.mk "BITS_POST" "Cancel-Session" "zz" "" "" "" "" []) "u1"
    (bitsError [] "zz" 400 0 remoteFile) (FileSystem.mk [] []) []
    (by decide) (by decide)

end Gobits

